import Mathlib

/-!
# Verification of the forms-agent document-to-questionnaire pipeline

Shallow embedding of the pure algorithmic core of the `forms-agent`
repository, together with theorems settling the frozen claims about it.

Embedded modules (Python source → Lean namespaces):

* `forms_agent/subagents/form_validator/tools.py` → `FormValidator`
* `forms_agent/subagents/document_parser/tools.py` → `DocParser`
* `forms_agent/subagents/form_creator/tools.py`   → `FormCreator`
* `forms_agent/subagents/form_editor/tools.py`    → `FormEditor`
* `google_forms_api.py`                            → `FormsApi`

Modelling conventions:

* Python dicts holding question data become the `Question` record.  A key
  read with `q.get(key, default)` where every call site uses the same
  default becomes a record field with that default; keys whose presence
  itself matters (`"grading" in question`) or whose default differs per
  call site become `Option` fields.  A missing `"question"` key is
  modelled as the empty string (the two behaviours agree on every code
  path a claim touches).
* Nested Python dict/list values produced by the compilers become the
  `JVal` inductive; dict insertion order is preserved as list order.
* Python string hashing (`hash(s)`, randomized per process) is passed in
  as an explicit parameter `pyHash`.
* Python `str.strip`/`str.lower` are modelled by `pyStrip` / `pyLower`
  (ASCII models; they agree on the data the pipeline handles).
* File-reading helpers (`_parse_pdf` …) are I/O and are passed in as
  function parameters, so that theorems can quantify over them.
-/

set_option maxRecDepth 16000

/-- JSON-like values: the shape of the nested dicts/lists the Python code
builds for the remote Google Forms API. Dict insertion order is kept. -/
inductive JVal where
  | jstr : String → JVal
  | jbool : Bool → JVal
  | jint : Int → JVal
  | jarr : List JVal → JVal
  | jobj : List (String × JVal) → JVal

open JVal

/-- A question dict as passed around the pipeline (see the modelling
conventions in the file header for how `dict.get` defaults are placed). -/
structure Question where
  type : String := ""
  question : String := ""
  title : String := ""
  required : Bool := false
  options : List String := []
  shuffle : Bool := false
  grading : Option JVal := none
  min_value : Int := 1
  max_value : Int := 5
  min_label : String := ""
  max_label : String := ""
  rows : List String := []
  columns : List String := []
  include_time : Bool := false
  include_year : Bool := true
  duration : Bool := false
  max_files : Int := 1
  max_file_size : Option Int := none
  allowed_file_types : List String := []
  content_uri : String := ""
  alignment : String := "LEFT"
  width : Int := 0
  height : Int := 0
  folder_id : String := ""
  youtube_uri : String := ""
  navigation_type : String := "CONTINUE"
  condition : Option JVal := none

/-- The in-memory questionnaire definition (`form_structure` dict). -/
structure FormStructure where
  title : String := ""
  description : String := ""
  questions : List Question := []

/-- The closed set of supported `QuestionKind` names (spec §3). -/
def questionKinds : List String :=
  ["short_answer", "long_answer", "multiple_choice", "checkbox", "dropdown",
   "linear_scale", "multiple_choice_grid", "checkbox_grid", "date", "time",
   "file_upload", "image", "video", "section"]

/-- Python regex `\s` / `str.strip` whitespace (space, tab, newline,
carriage return, form feed, vertical tab). -/
def isPySpace (c : Char) : Bool :=
  c = ' ' || c = '\t' || c = '\n' || c = '\r' || c = Char.ofNat 12 || c = Char.ofNat 11

/-- ASCII lowercasing of one character (models Python `str.lower` on the
ASCII data the pipeline handles). -/
def pyLowerChar (c : Char) : Char :=
  if 65 ≤ c.toNat ∧ c.toNat ≤ 90 then Char.ofNat (c.toNat + 32) else c

/-- Models Python `s.lower()`. -/
def pyLower (s : String) : String :=
  String.mk (s.data.map pyLowerChar)

/-- Models Python `s.strip()`. -/
def pyStrip (s : String) : String :=
  String.mk (((s.data.dropWhile isPySpace).reverse.dropWhile isPySpace).reverse)

/-- Helper for `wsTokens`: `acc` holds the current token, reversed. -/
def wsTokensAux : List Char → List Char → List String
  | acc, [] => if acc.isEmpty then [] else [String.mk acc.reverse]
  | acc, c :: rest =>
    if isPySpace c then
      if acc.isEmpty then wsTokensAux [] rest
      else String.mk acc.reverse :: wsTokensAux [] rest
    else wsTokensAux (c :: acc) rest

/-- Models Python `s.split()` (whitespace-run tokenisation, no empty
tokens). -/
def wsTokens (cs : List Char) : List String :=
  wsTokensAux [] cs

/-- Substring test on character lists: `needle` occurs inside `hay`.
Models Python `needle in hay` for strings. -/
def listContainsSub (needle hay : List Char) : Bool :=
  match hay with
  | [] => needle.isEmpty
  | _ :: t => needle.isPrefixOf hay || listContainsSub needle t

/-- Models Python `needle in hay` for strings. -/
def strContains (hay needle : String) : Bool :=
  listContainsSub needle.data hay.data

/-- Models Python `any(word in text for word in words)`. -/
def containsAny (text : String) (words : List String) : Bool :=
  words.any (fun w => strContains text w)

namespace FormValidator

/-- Per-question issues/warnings produced by one iteration of the loop in
`_validate_questions` (question index `i`, 0-based as in `enumerate`). -/
def questionChecks (i : Nat) (q : Question) : List String × List String :=
  let textIssues :=
    if q.question = "" ∨ pyStrip q.question = "" then
      ["Question " ++ toString (i + 1) ++ ": Question text is required"]
    else if q.question.length > 4096 then
      ["Question " ++ toString (i + 1) ++ ": Question text exceeds 4096 character limit"]
    else []
  let typeIssues :=
    if q.type = "" then
      ["Question " ++ toString (i + 1) ++ ": Question type is required"]
    else []
  if q.type = "multiple_choice" then
    let countPair :=
      if q.options.length < 2 then
        (["Question " ++ toString (i + 1) ++ ": Multiple choice questions need at least 2 options"],
         ([] : List String))
      else if q.options.length > 20 then
        ([], ["Question " ++ toString (i + 1) ++ ": Many options (" ++ toString q.options.length
          ++ ") may be overwhelming"])
      else ([], [])
    let optionIssues :=
      (q.options.enum.filterMap (fun p =>
        if p.2.length > 1000 then
          some ("Question " ++ toString (i + 1) ++ ", Option " ++ toString (p.1 + 1)
            ++ ": Option text exceeds 1000 character limit")
        else none))
    (textIssues ++ typeIssues ++ countPair.1 ++ optionIssues, countPair.2)
  else
    (textIssues ++ typeIssues, [])

/-- `_validate_questions` loop over `enumerate(questions)` starting at `i`. -/
def validateQuestionsAux (i : Nat) : List Question → List String × List String
  | [] => ([], [])
  | q :: rest =>
    let here := questionChecks i q
    let there := validateQuestionsAux (i + 1) rest
    (here.1 ++ there.1, here.2 ++ there.2)

/-- `_validate_questions(questions)`: issues and warnings for the
individual questions. -/
def _validate_questions (questions : List Question) : List String × List String :=
  validateQuestionsAux 0 questions

/-- Python `repr` of a list of strings (as rendered into an f-string);
`\x27` is the ASCII single-quote character. -/
def pyListRepr (items : List String) : String :=
  "[" ++ String.intercalate ", " (items.map (fun s => "\x27" ++ s ++ "\x27")) ++ "]"

/-- `_find_duplicates(items)`. The Python version collects the duplicated
items into a `set` and returns `list(set)`, whose order is unspecified;
we model the deterministic first-duplicated-occurrence order. -/
def _find_duplicates (items : List String) : List String :=
  go [] [] items
where
  go (seen dups : List String) : List String → List String
    | [] => dups.reverse
    | x :: rest =>
      if x ∈ seen then
        if x ∈ dups then go seen dups rest else go seen (x :: dups) rest
      else go (x :: seen) dups rest

/-- The `validation_result` dict built by `validate_form_structure`. -/
structure ValidationResult where
  is_valid : Bool
  issues : List String
  warnings : List String
  question_count : Nat
  validated_structure : Option FormStructure

/-- The envelope returned by `validate_form_structure`. -/
structure ValidateEnvelope where
  status : String
  validation : ValidationResult
  summary : String

/-- `validate_form_structure(form_structure)` (the `tool_context=None`
path; the session-state write is skipped, the `try` body cannot raise in
this typed model). -/
def validate_form_structure (form_structure : FormStructure) : ValidateEnvelope :=
  let titleIssues :=
    if form_structure.title = "" then ["Form title is required"]
    else if form_structure.title.length > 300 then ["Form title exceeds 300 character limit"]
    else []
  let descIssues :=
    if form_structure.description = "" then []
    else if form_structure.description.length > 4096 then
      ["Form description exceeds 4096 character limit"]
    else []
  let descWarnings :=
    if form_structure.description = "" then
      ["Form description is recommended for better user experience"]
    else []
  let questions := form_structure.questions
  let countIssues :=
    if questions.isEmpty then ["Form must have at least one question"]
    else if questions.length > 100 then ["Form exceeds maximum of 100 questions"]
    else []
  let questionValidation := _validate_questions questions
  let question_texts := questions.map (fun q => q.question)
  let duplicates := _find_duplicates question_texts
  let dupWarnings :=
    if duplicates.isEmpty then []
    else ["Duplicate questions found: " ++ pyListRepr duplicates]
  let issues := titleIssues ++ descIssues ++ countIssues ++ questionValidation.1
  let warnings := descWarnings ++ questionValidation.2 ++ dupWarnings
  let is_valid := issues.length == 0
  let validation_result : ValidationResult :=
    { is_valid := is_valid
      issues := issues
      warnings := warnings
      question_count := questions.length
      validated_structure := if is_valid then some form_structure else none }
  { status := "success"
    validation := validation_result
    summary := (if is_valid then "Valid" else "Invalid") ++ " form with "
      ++ toString issues.length ++ " issues and " ++ toString warnings.length ++ " warnings" }

/-- The `conversions` lookup dict inside `_suggest_type_conversion`. -/
def conversions : List (String × String) :=
  [("text", "short_answer"), ("textarea", "long_answer"), ("number", "short_answer"),
   ("email", "short_answer"), ("url", "short_answer"), ("phone", "short_answer"),
   ("rating", "linear_scale"), ("scale", "linear_scale"), ("select", "dropdown"),
   ("radio", "multiple_choice"), ("multi_select", "checkbox")]

/-- `_suggest_type_conversion(original_type, question_text)`.  The Python
signature says `Optional[str]`, but every return statement in the body
returns a string, so the embedding returns `String`. -/
def _suggest_type_conversion (original_type : String) (question_text : String) : String :=
  let question_lower := pyLower question_text
  match conversions.lookup original_type with
  | some t => t
  | none =>
    if containsAny question_lower ["rate", "scale", "score"] then "linear_scale"
    else if containsAny question_lower ["select all", "check all", "multiple"] then "checkbox"
    else if containsAny question_lower ["explain", "describe", "elaborate"] then "long_answer"
    else "short_answer"

/-- The `supported_types` dict inside `check_question_types`. -/
def supported_types : List (String × String) :=
  [("multiple_choice", "MULTIPLE_CHOICE"), ("short_answer", "SHORT_ANSWER"),
   ("long_answer", "PARAGRAPH"), ("checkbox", "CHECKBOX"), ("dropdown", "DROP_DOWN"),
   ("linear_scale", "LINEAR_SCALE"), ("multiple_choice_grid", "MULTIPLE_CHOICE_GRID"),
   ("checkbox_grid", "CHECKBOX_GRID"), ("date", "DATE"), ("time", "TIME"),
   ("file_upload", "FILE_UPLOAD")]

/-- `_convert_to_google_forms_format(question, google_forms_type)`. -/
def _convert_to_google_forms_format (question : Question) (google_forms_type : String) : JVal :=
  let base := [("type", jstr google_forms_type), ("question", jstr question.question),
               ("required", jbool question.required)]
  if google_forms_type ∈ ["MULTIPLE_CHOICE", "CHECKBOX", "DROP_DOWN"] then
    if question.options.isEmpty then jobj base
    else jobj (base ++ [("options", jarr (question.options.map jstr))])
  else if google_forms_type = "LINEAR_SCALE" then
    jobj (base ++ [("min_value", jint question.min_value), ("max_value", jint question.max_value),
      ("min_label", jstr question.min_label), ("max_label", jstr question.max_label)])
  else if google_forms_type ∈ ["MULTIPLE_CHOICE_GRID", "CHECKBOX_GRID"] then
    jobj (base ++ [("rows", jarr (question.rows.map jstr)),
      ("columns", jarr (question.columns.map jstr))])
  else if google_forms_type = "FILE_UPLOAD" then
    jobj (base ++ [("max_files", jint question.max_files),
      ("max_file_size", jint (question.max_file_size.getD 10))])
  else jobj base

/-- The `type_analysis` dict of `check_question_types`. -/
structure TypeAnalysis where
  supported : List JVal := []
  unsupported : List JVal := []
  conversion_needed : List JVal := []

/-- The `summary` dict of `check_question_types`. -/
structure CheckSummary where
  total_questions : Nat
  supported : Nat
  needs_conversion : Nat
  unsupported : Nat

/-- The envelope returned by `check_question_types`. -/
structure CheckTypesResult where
  status : String
  type_analysis : TypeAnalysis
  converted_questions : List JVal
  summary : CheckSummary

/-- The loop of `check_question_types` over `enumerate(questions)` from
index `i`: accumulates the `type_analysis` lists and the
`converted_questions` list in iteration order.  The `KeyError` that
`supported_types[converted_type]` could raise in Python is modelled with
`getD ""`; it is unreachable (`suggest_mem_keys` below). -/
def checkTypesAux (i : Nat) : List Question → TypeAnalysis × List JVal
  | [] => ({}, [])
  | q :: rest =>
    let question_type := pyLower q.type
    let question_text := if q.question = "" then "Question " ++ toString (i + 1) else q.question
    let acc := checkTypesAux (i + 1) rest
    match supported_types.lookup question_type with
    | some g =>
      let entry := jobj [("index", jint i), ("type", jstr question_type),
        ("google_forms_type", jstr g)]
      ({ acc.1 with supported := entry :: acc.1.supported },
       _convert_to_google_forms_format q g :: acc.2)
    | none =>
      let converted_type := _suggest_type_conversion question_type question_text
      if converted_type ≠ "" then
        let g2 := (supported_types.lookup converted_type).getD ""
        let entry := jobj [("index", jint i), ("original_type", jstr question_type),
          ("suggested_type", jstr converted_type), ("google_forms_type", jstr g2)]
        ({ acc.1 with conversion_needed := entry :: acc.1.conversion_needed },
         _convert_to_google_forms_format { q with type := converted_type } g2 :: acc.2)
      else
        let entry := jobj [("index", jint i), ("type", jstr question_type),
          ("question", jstr question_text)]
        ({ acc.1 with unsupported := entry :: acc.1.unsupported },
         acc.2)

/-- `check_question_types(questions)` (the `tool_context=None` path). -/
def check_question_types (questions : List Question) : CheckTypesResult :=
  let acc := checkTypesAux 0 questions
  { status := "success"
    type_analysis := acc.1
    converted_questions := acc.2
    summary := { total_questions := questions.length, supported := acc.1.supported.length,
                 needs_conversion := acc.1.conversion_needed.length,
                 unsupported := acc.1.unsupported.length } }

/-- The conversion that `check_question_types` performs for the question at
index `i`: the supported branch converts the question as-is, the
conversion branch first rewrites its type to the suggested one. -/
def convertedQuestionFor (i : Nat) (q : Question) : JVal :=
  let question_type := pyLower q.type
  let question_text := if q.question = "" then "Question " ++ toString (i + 1) else q.question
  match supported_types.lookup question_type with
  | some g => _convert_to_google_forms_format q g
  | none =>
    let converted_type := _suggest_type_conversion question_type question_text
    _convert_to_google_forms_format { q with type := converted_type }
      ((supported_types.lookup converted_type).getD "")

end FormValidator

namespace DocParser

/-- `[A-D]` / `a)` with `re.IGNORECASE`: an option-marker letter. -/
def mcLetter (c : Char) : Bool :=
  c = 'A' || c = 'B' || c = 'C' || c = 'D' || c = 'a' || c = 'b' || c = 'c' || c = 'd'

/-! ### `re.findall(r"(\d+\.?\s*.*?\?)", text)` — numbered questions

Backtracking matcher for the pattern, alternatives tried in engine order
(greedy pieces longest-first, lazy pieces shortest-first).  Without
`re.DOTALL`, `.` does not match a newline, while `\s` does. -/

/-- `.*?\?`: shortest prefix of non-newline characters ending in `?`
(length includes the `?`). -/
def lazyToQmark : List Char → Option Nat
  | [] => none
  | c :: rest =>
    if c = '?' then some 1
    else if c = '\n' then none
    else (lazyToQmark rest).map (· + 1)

/-- `\s*.*?\?`: greedy whitespace run with backtracking, then
`lazyToQmark`. -/
def spacesThenQmark : List Char → Option Nat
  | [] => none
  | c :: rest =>
    if isPySpace c then
      match spacesThenQmark rest with
      | some n => some (n + 1)
      | none => lazyToQmark (c :: rest)
    else lazyToQmark (c :: rest)

/-- `\.?\s*.*?\?`: greedy optional dot, then `spacesThenQmark`. -/
def dotSpacesQmark : List Char → Option Nat
  | [] => none
  | c :: rest =>
    if c = '.' then
      match spacesThenQmark rest with
      | some n => some (n + 1)
      | none => spacesThenQmark (c :: rest)
    else spacesThenQmark (c :: rest)

/-- `\d+\.?\s*.*?\?` anchored at the head of the list: match length, or
`none`.  Greedy `\d+` (at least one digit) with backtracking. -/
def numberedMatchLen : List Char → Option Nat
  | [] => none
  | c :: rest =>
    if c.isDigit then
      match numberedMatchLen rest with
      | some n => some (n + 1)
      | none => (dotSpacesQmark rest).map (· + 1)
    else none

/-- Leftmost non-overlapping scan (the `findall` loop); `fuel` bounds the
number of scan steps (each step consumes at least one character, so
`cs.length` is always enough fuel). -/
def findNumberedAux : Nat → List Char → List String
  | 0, _ => []
  | _, [] => []
  | fuel + 1, c :: rest =>
    match numberedMatchLen (c :: rest) with
    | some n => String.mk ((c :: rest).take n) :: findNumberedAux fuel ((c :: rest).drop n)
    | none => findNumberedAux fuel rest

/-- `re.findall(r"(\d+\.?\s*.*?\?)", text)`. -/
def findNumbered (text : String) : List String :=
  findNumberedAux text.data.length text.data

/-! ### `re.findall(r"(\d+\.?\s*.*?\?.*?)(?=\n\s*[A-D]\)|\n\s*a\))", text, re.DOTALL | re.IGNORECASE)`
— multiple-choice stems.  With `re.DOTALL`, `.` matches newlines too. -/

/-- The lookahead `(?=\n\s*[A-D]\)|\n\s*a\))` (case-insensitive; the
second alternative adds nothing beyond the first for letters `a`/`A`). -/
def mcLookahead : List Char → Bool
  | '\n' :: rest =>
    match rest.dropWhile isPySpace with
    | a :: b :: _ => mcLetter a && b = ')'
    | _ => false
  | _ => false

/-- `.*?` (DOTALL) up to the first position where the lookahead holds. -/
def lazyToLookahead : List Char → Option Nat
  | [] => if mcLookahead [] then some 0 else none
  | c :: rest =>
    if mcLookahead (c :: rest) then some 0
    else (lazyToLookahead rest).map (· + 1)

/-- `.*?\?.*?` (DOTALL) followed by the lookahead: the closing `?` is
searched lazily; if no lookahead position follows a candidate `?`, that
`?` is swallowed by the first `.*?` and the search goes on. -/
def qmarkThenLookahead : List Char → Option Nat
  | [] => none
  | c :: rest =>
    if c = '?' then
      match lazyToLookahead rest with
      | some k => some (k + 1)
      | none => (qmarkThenLookahead rest).map (· + 1)
    else (qmarkThenLookahead rest).map (· + 1)

/-- `\s*` (greedy, backtracking) then `qmarkThenLookahead`. -/
def mcSpacesTail : List Char → Option Nat
  | [] => none
  | c :: rest =>
    if isPySpace c then
      match mcSpacesTail rest with
      | some n => some (n + 1)
      | none => qmarkThenLookahead (c :: rest)
    else qmarkThenLookahead (c :: rest)

/-- `\.?` (greedy) then `mcSpacesTail`. -/
def mcDotTail : List Char → Option Nat
  | [] => none
  | c :: rest =>
    if c = '.' then
      match mcSpacesTail rest with
      | some n => some (n + 1)
      | none => mcSpacesTail (c :: rest)
    else mcSpacesTail (c :: rest)

/-- The full multiple-choice stem pattern anchored at the head: length of
the captured group (the lookahead is zero-width). -/
def mcMatchLen : List Char → Option Nat
  | [] => none
  | c :: rest =>
    if c.isDigit then
      match mcMatchLen rest with
      | some n => some (n + 1)
      | none => (mcDotTail rest).map (· + 1)
    else none

/-- `findall` scan for multiple-choice stems. -/
def findMCAux : Nat → List Char → List String
  | 0, _ => []
  | _, [] => []
  | fuel + 1, c :: rest =>
    match mcMatchLen (c :: rest) with
    | some n => String.mk ((c :: rest).take n) :: findMCAux fuel ((c :: rest).drop n)
    | none => findMCAux fuel rest

/-- The `mc_matches` list of `extract_questions`. -/
def findMC (text : String) : List String :=
  findMCAux text.data.length text.data

/-! ### `re.findall(r".*?_+.*?", text)` — fill-in-the-blank prompts -/

/-- `_+` greedy (the trailing `.*?` of the pattern matches empty). -/
def underscoreRun : List Char → Option Nat
  | [] => none
  | c :: rest =>
    if c = '_' then
      match underscoreRun rest with
      | some n => some (n + 1)
      | none => some 1
    else none

/-- `.*?_+.*?` anchored at the head (no DOTALL): lazy scan on the current
line for the first underscore run. -/
def blankMatchLen : List Char → Option Nat
  | [] => none
  | c :: rest =>
    if c = '_' then underscoreRun (c :: rest)
    else if c = '\n' then none
    else (blankMatchLen rest).map (· + 1)

/-- `findall` scan for fill-in-the-blank matches. -/
def findBlankAux : Nat → List Char → List String
  | 0, _ => []
  | _, [] => []
  | fuel + 1, c :: rest =>
    match blankMatchLen (c :: rest) with
    | some n => String.mk ((c :: rest).take n) :: findBlankAux fuel ((c :: rest).drop n)
    | none => findBlankAux fuel rest

/-- The `blank_matches` list of `extract_questions`. -/
def findBlank (text : String) : List String :=
  findBlankAux text.data.length text.data

/-! ### `re.findall(r"[A-D]\)\s*(.+?)(?=\n|[A-D]\)|$)", slice, re.IGNORECASE)`
— lettered options (run on a 500-character slice after the stem). -/

/-- The lookahead `(?=\n|[A-D]\)|$)` (without `re.MULTILINE`, `$` here is
end-of-slice; the end-before-trailing-newline case is subsumed by the
`\n` alternative). -/
def optLookahead : List Char → Bool
  | [] => true
  | '\n' :: _ => true
  | a :: b :: _ => mcLetter a && b = ')'
  | _ => false

/-- `(.+?)`: shortest nonempty non-newline run after which the lookahead
holds; returns the capture length. -/
def optCapture : List Char → Option Nat
  | [] => none
  | c :: rest =>
    if c = '\n' then none
    else if optLookahead rest then some 1
    else (optCapture rest).map (· + 1)

/-- `\s*(.+?)(?=…)`: greedy backtracking whitespace, then the capture.
Returns (consumed length, capture length). -/
def optSpacesCapture : List Char → Option (Nat × Nat)
  | [] => none
  | c :: rest =>
    if isPySpace c then
      match optSpacesCapture rest with
      | some p => some (p.1 + 1, p.2)
      | none => (optCapture (c :: rest)).map (fun n => (n, n))
    else (optCapture (c :: rest)).map (fun n => (n, n))

/-- The full option pattern anchored at the head: (full match length,
capture length). -/
def optMatchAt : List Char → Option (Nat × Nat)
  | a :: b :: rest =>
    if mcLetter a && b = ')' then
      (optSpacesCapture rest).map (fun p => (p.1 + 2, p.2))
    else none
  | _ => none

/-- `findall` scan for options; emits the captured group only. -/
def findOptionsAux : Nat → List Char → List String
  | 0, _ => []
  | _, [] => []
  | fuel + 1, c :: rest =>
    match optMatchAt (c :: rest) with
    | some p => String.mk (((c :: rest).take p.1).drop (p.1 - p.2))
        :: findOptionsAux fuel ((c :: rest).drop p.1)
    | none => findOptionsAux fuel rest

/-- Python `text.find(needle)`: index of the first occurrence. -/
def findSub (hay needle : List Char) : Option Nat :=
  go hay 0
where
  go : List Char → Nat → Option Nat
    | [], i => if needle.isEmpty then some i else none
    | c :: t, i => if needle.isPrefixOf (c :: t) then some i else go t (i + 1)

/-- `_extract_options_for_question(text, question)`: scan the 500
characters after the first occurrence of the stem. -/
def _extract_options_for_question (text question : String) : List String :=
  match findSub text.data question.data with
  | none => []
  | some idx =>
    let text_after_question := (text.data.drop (idx + question.data.length)).take 500
    (findOptionsAux text_after_question.length text_after_question).map (fun s => pyStrip s)

/-- `_determine_question_type(question)`: keyword heuristics, first match
wins, evaluated on the lowercased text. -/
def _determine_question_type (question : String) : String :=
  let question_lower := pyLower question
  if containsAny question_lower ["explain", "describe", "elaborate", "why", "how"] then
    "long_answer"
  else if containsAny question_lower ["rate", "scale", "score", "1-5", "1-10"] then
    "linear_scale"
  else if containsAny question_lower ["select all", "check all", "multiple"] then
    "checkbox"
  else if containsAny question_lower ["date", "when"] then "date"
  else if containsAny question_lower ["time", "hour"] then "time"
  else "short_answer"

/-- The question-collection part of `extract_questions(text)`: the three
pattern loops, in source order (the title/description extraction and the
statistics of the returned envelope are not referenced by any claim and
are omitted). -/
def extract_questions (text : String) : List Question :=
  let mc_matches := findMC text
  let mcQuestions : List Question := mc_matches.map (fun m =>
    { type := "multiple_choice", question := pyStrip m,
      options := _extract_options_for_question text m, required := true })
  let blank_matches := findBlank text
  let blankQuestions : List Question :=
    (blank_matches.filter (fun m => pyStrip m ≠ "" && strContains m "?")).map
      (fun m => { type := "short_answer", question := pyStrip m, required := true })
  let numbered_matches := findNumbered text
  let numberedQuestions : List Question :=
    (numbered_matches.filter (fun m => !(mc_matches.any (fun mc => strContains m mc)))).map
      (fun m => { type := _determine_question_type m, question := pyStrip m, required := true })
  mcQuestions ++ blankQuestions ++ numberedQuestions

/-- `os.path.splitext(file_path)[1].lower()`: the extension of the final
path component; leading dots of the basename do not start an extension. -/
def splitextLower (path : String) : String :=
  let base := (path.data.reverse.takeWhile (fun c => c ≠ '/')).reverse
  let trimmed := base.dropWhile (fun c => c = '.')
  if trimmed.contains '.' then
    pyLower (String.mk ('.' :: (trimmed.reverse.takeWhile (fun c => c ≠ '.')).reverse))
  else ""

/-- The `metadata` dict of `parse_document`. -/
structure ParseMetadata where
  file_type : String
  file_path : String
  deriving DecidableEq

/-- The envelope returned by `parse_document` (success and error shapes
merged into one record with optional fields). -/
structure ParseResult where
  status : String
  error_message : Option String := none
  supported_types : Option (List String) := none
  extracted_text : Option String := none
  metadata : Option ParseMetadata := none
  text_length : Option Nat := none
  word_count : Option Nat := none
  deriving DecidableEq

/-- `parse_document(file_path)` (the `tool_context=None` path).  The
file-reading helpers `_parse_pdf` / `_parse_docx` / `_parse_text_file`
perform I/O and are passed in as functions from the path to the text they
would extract. -/
def parse_document (parsePdf parseDocx parseTextFile : String → String)
    (file_path : String) : ParseResult :=
  let file_extension := splitextLower file_path
  let success (extracted_text : String) : ParseResult :=
    { status := "success"
      extracted_text := some extracted_text
      metadata := some { file_type := file_extension, file_path := file_path }
      text_length := some extracted_text.length
      word_count := some (wsTokens extracted_text.data).length }
  if file_extension = ".pdf" then success (parsePdf file_path)
  else if file_extension = ".docx" then success (parseDocx file_path)
  else if file_extension = ".txt" ∨ file_extension = ".md" then success (parseTextFile file_path)
  else
    { status := "error"
      error_message := some ("Unsupported file type: " ++ file_extension)
      supported_types := some [".pdf", ".docx", ".txt", ".md"] }

end DocParser

namespace FormCreator

/-- Appends the optional `grading` pair to an inner `question` dict
(`question_item["question"]["grading"] = question["grading"]`). -/
def withGrading (question : Question) (inner : List (String × JVal)) : List (String × JVal) :=
  match question.grading with
  | some g => inner ++ [("grading", g)]
  | none => inner

/-- `_format_question_for_api(question)` from the form-creator module:
strict nesting under `questionItem`; unknown types fall through every
branch and return the bare `{title}` item. -/
def _format_question_for_api (question : Question) : JVal :=
  let question_type := pyLower question.type
  let required := question.required
  let titleField := ("title", jstr question.question)
  if question_type ∈ ["multiple_choice", "checkbox", "dropdown", "short_answer", "long_answer",
      "linear_scale", "multiple_choice_grid", "checkbox_grid", "date", "time", "file_upload"] then
    let inner : List (String × JVal) :=
      if question_type = "multiple_choice" then
        withGrading question [("required", jbool required),
          ("choiceQuestion", jobj [("type", jstr "RADIO"),
            ("options", jarr (question.options.map (fun o => jobj [("value", jstr o)]))),
            ("shuffle", jbool question.shuffle)])]
      else if question_type = "checkbox" then
        withGrading question [("required", jbool required),
          ("choiceQuestion", jobj [("type", jstr "CHECKBOX"),
            ("options", jarr (question.options.map (fun o => jobj [("value", jstr o)]))),
            ("shuffle", jbool question.shuffle)])]
      else if question_type = "dropdown" then
        withGrading question [("required", jbool required),
          ("choiceQuestion", jobj [("type", jstr "DROP_DOWN"),
            ("options", jarr (question.options.map (fun o => jobj [("value", jstr o)])))])]
      else if question_type = "short_answer" then
        withGrading question [("required", jbool required), ("textQuestion", jobj [])]
      else if question_type = "long_answer" then
        withGrading question [("required", jbool required),
          ("textQuestion", jobj [("paragraph", jbool true)])]
      else if question_type = "linear_scale" then
        [("required", jbool required),
         ("scaleQuestion", jobj [("low", jint question.min_value),
           ("high", jint question.max_value), ("lowLabel", jstr question.min_label),
           ("highLabel", jstr question.max_label)])]
      else if question_type = "multiple_choice_grid" ∨ question_type = "checkbox_grid" then
        let grid_type := if question_type = "multiple_choice_grid" then "RADIO" else "CHECKBOX"
        [("required", jbool required),
         ("gridQuestion", jobj [
           ("columns", jobj [("options",
             jarr (question.columns.map (fun c => jobj [("value", jstr c)])))]),
           ("rows", jobj [("options",
             jarr (question.rows.map (fun r => jobj [("value", jstr r)])))]),
           ("type", jstr grid_type)])]
      else if question_type = "date" then
        [("required", jbool required),
         ("dateQuestion", jobj [("includeTime", jbool question.include_time),
           ("includeYear", jbool question.include_year)])]
      else if question_type = "time" then
        [("required", jbool required),
         ("timeQuestion", jobj [("duration", jbool question.duration)])]
      else
        [("required", jbool required),
         ("fileUploadQuestion", jobj [("maxFiles", jint question.max_files),
           ("maxFileSize", jint (question.max_file_size.getD 10485760)),
           ("allowedFileTypes", jarr (question.allowed_file_types.map jstr))])]
    jobj [titleField, ("questionItem", jobj [("question", jobj inner)])]
  else if question_type = "image" then
    jobj [titleField, ("imageItem", jobj [("image", jobj [
      ("contentUri", jstr question.content_uri),
      ("properties", jobj [("alignment", jstr question.alignment)])])])]
  else if question_type = "video" then
    jobj [titleField, ("videoItem", jobj [("video", jobj [
      ("youtubeUri", jstr question.youtube_uri)])])]
  else if question_type = "section" then
    jobj [titleField, ("pageBreakItem", jobj [("navigationType", jstr question.navigation_type)])]
  else
    jobj [titleField]

/-- The `requests` list that `_add_questions_direct` builds before its
network call: one `createItem` per `enumerate`d question.  In this typed
model `_format_question_for_api` is total, so the per-question `except`
skip branch never fires. -/
def addQuestionsRequestsAux (i : Nat) : List Question → List JVal
  | [] => []
  | q :: rest =>
    jobj [("createItem", jobj [("item", _format_question_for_api q),
      ("location", jobj [("index", jint i)])])]
      :: addQuestionsRequestsAux (i + 1) rest

/-- The compiled batch of `_add_questions_direct(form_id, questions)`. -/
def _add_questions_direct_requests (questions : List Question) : List JVal :=
  addQuestionsRequestsAux 0 questions

end FormCreator

namespace FormsApi

/-- The `requests` list that `GoogleFormsAPI.add_questions` builds; that
class has its own `_format_question_for_api`, passed in here as `fmt`. -/
def addQuestionsRequestsAux (fmt : Question → JVal) (i : Nat) : List Question → List JVal
  | [] => []
  | q :: rest =>
    jobj [("createItem", jobj [
      ("item", jobj [("title", jstr q.title),
        ("questionItem", jobj [("question", fmt q), ("required", jbool q.required)])]),
      ("location", jobj [("index", jint i)])])]
      :: addQuestionsRequestsAux fmt (i + 1) rest

/-- The compiled batch of `GoogleFormsAPI.add_questions(form_id, questions)`. -/
def add_questions_requests (fmt : Question → JVal) (questions : List Question) : List JVal :=
  addQuestionsRequestsAux fmt 0 questions

end FormsApi

namespace FormEditor

/-- Appends the optional `grading` pair to an inner `question` dict. -/
def withGrading (question : Question) (inner : List (String × JVal)) : List (String × JVal) :=
  match question.grading with
  | some g => inner ++ [("grading", g)]
  | none => inner

/-- `_format_question_for_api(question)` from the form-editor module.
`pyHash` stands for Python's per-process-randomized `hash` on strings
(only used to mint the `questionId`).  Unknown types take the final
`else` branch: they are silently defaulted to a short-answer text
question. -/
def _format_question_for_api (pyHash : String → Nat) (question : Question) : JVal :=
  let question_type := pyLower question.type
  let question_text := question.question
  let required := question.required
  let questionId := "question_" ++ toString (pyHash question_text % 1000000)
  let baseFields := [("title", jstr question_text), ("questionId", jstr questionId)]
  if question_type = "multiple_choice" then
    jobj (baseFields ++ [("question", jobj (withGrading question
      [("questionId", jstr questionId), ("required", jbool required),
       ("choiceQuestion", jobj [("type", jstr "RADIO"),
         ("options", jarr (question.options.map (fun o => jobj [("value", jstr o)]))),
         ("shuffle", jbool question.shuffle)])]))])
  else if question_type = "checkbox" then
    jobj (baseFields ++ [("question", jobj (withGrading question
      [("questionId", jstr questionId), ("required", jbool required),
       ("choiceQuestion", jobj [("type", jstr "CHECKBOX"),
         ("options", jarr (question.options.map (fun o => jobj [("value", jstr o)]))),
         ("shuffle", jbool question.shuffle)])]))])
  else if question_type = "dropdown" then
    jobj (baseFields ++ [("question", jobj (withGrading question
      [("questionId", jstr questionId), ("required", jbool required),
       ("choiceQuestion", jobj [("type", jstr "DROP_DOWN"),
         ("options", jarr (question.options.map (fun o => jobj [("value", jstr o)])))])]))])
  else if question_type = "short_answer" then
    jobj (baseFields ++ [("question", jobj (withGrading question
      [("questionId", jstr questionId), ("required", jbool required),
       ("textQuestion", jobj [("type", jstr "SHORT_ANSWER")])]))])
  else if question_type = "long_answer" then
    jobj (baseFields ++ [("question", jobj (withGrading question
      [("questionId", jstr questionId), ("required", jbool required),
       ("textQuestion", jobj [("type", jstr "PARAGRAPH")])]))])
  else if question_type = "linear_scale" then
    jobj (baseFields ++ [("question", jobj
      [("questionId", jstr questionId), ("required", jbool required),
       ("scaleQuestion", jobj [("low", jint question.min_value),
         ("high", jint question.max_value), ("lowLabel", jstr question.min_label),
         ("highLabel", jstr question.max_label)])])])
  else if question_type = "multiple_choice_grid" ∨ question_type = "checkbox_grid" then
    jobj (baseFields ++ [("question", jobj
      [("questionId", jstr questionId), ("required", jbool required),
       ("gridQuestion", jobj [
         ("columns", jobj [("options",
           jarr (question.columns.map (fun c => jobj [("value", jstr c)])))]),
         ("rows", jobj [("options",
           jarr (question.rows.map (fun r => jobj [("value", jstr r)])))]),
         ("shuffleQuestions", jbool question.shuffle)])])])
  else if question_type = "date" then
    jobj (baseFields ++ [("question", jobj
      [("questionId", jstr questionId), ("required", jbool required),
       ("dateQuestion", jobj [("includeTime", jbool question.include_time),
         ("includeYear", jbool question.include_year)])])])
  else if question_type = "time" then
    jobj (baseFields ++ [("question", jobj
      [("questionId", jstr questionId), ("required", jbool required),
       ("timeQuestion", jobj [("duration", jbool question.duration)])])])
  else if question_type = "file_upload" then
    jobj (baseFields ++ [("question", jobj
      [("questionId", jstr questionId), ("required", jbool required),
       ("fileUploadQuestion", jobj [("folderId", jstr question.folder_id),
         ("maxFiles", jint question.max_files),
         ("maxFileSize", jint (question.max_file_size.getD 10485760)),
         ("allowedFileTypes", jarr (question.allowed_file_types.map jstr))])])])
  else if question_type = "image" then
    let props :=
      if question.width ≠ 0 ∧ question.height ≠ 0 then
        [("alignment", jstr question.alignment), ("width", jint question.width),
         ("height", jint question.height)]
      else [("alignment", jstr question.alignment)]
    jobj (baseFields ++ [("imageItem", jobj [("image", jobj [
      ("contentUri", jstr question.content_uri), ("properties", jobj props)])])])
  else if question_type = "video" then
    jobj (baseFields ++ [("videoItem", jobj [("video", jobj [
      ("youtubeUri", jstr question.youtube_uri)])])])
  else if question_type = "section" then
    let pageBreak :=
      match question.condition with
      | some c => [("navigationType", jstr question.navigation_type), ("condition", c)]
      | none => [("navigationType", jstr question.navigation_type)]
    jobj (baseFields ++ [("pageBreakItem", jobj pageBreak)])
  else
    jobj (baseFields ++ [("question", jobj
      [("questionId", jstr questionId), ("required", jbool required),
       ("textQuestion", jobj [("type", jstr "SHORT_ANSWER")])])])

/-- The `mask_parts` list built by `_get_update_mask_for_question`. -/
def maskParts (question_data : Question) : List String :=
  let question_type := pyLower question_data.type
  let typeParts :=
    if question_type ∈ ["multiple_choice", "checkbox", "dropdown"] then
      ["questionItem.question.choiceQuestion", "questionItem.question.required"]
    else if question_type ∈ ["short_answer", "long_answer"] then
      ["questionItem.question.textQuestion", "questionItem.question.required"]
    else if question_type = "linear_scale" then
      ["questionItem.question.scaleQuestion", "questionItem.question.required"]
    else if question_type ∈ ["multiple_choice_grid", "checkbox_grid"] then
      ["questionItem.question.gridQuestion", "questionItem.question.required"]
    else if question_type = "date" then
      ["questionItem.question.dateQuestion", "questionItem.question.required"]
    else if question_type = "time" then
      ["questionItem.question.timeQuestion", "questionItem.question.required"]
    else if question_type = "file_upload" then
      ["questionItem.question.fileUploadQuestion", "questionItem.question.required"]
    else if question_type = "image" then ["imageItem.image", "imageItem.image.properties"]
    else if question_type = "video" then ["videoItem.video"]
    else if question_type = "section" then ["pageBreakItem.navigationType"]
    else ["questionItem"]
  let gradingParts :=
    if question_data.grading.isSome then ["questionItem.question.grading"] else []
  "title" :: (typeParts ++ gradingParts)

/-- `_get_update_mask_for_question(question_data)`: the comma-joined
update mask. -/
def _get_update_mask_for_question (question_data : Question) : String :=
  String.intercalate "," (maskParts question_data)

end FormEditor

/-! ## Spec-side predicates -/

/-- Spec §3 invariants for one question, written from the spec's words
(question text non-empty and ≤4096 characters, kind in the closed set,
choice kinds with ≥2 options of ≤1000 characters each). -/
def QuestionOk (q : Question) : Prop :=
  pyStrip q.question ≠ "" ∧ q.question.length ≤ 4096 ∧ q.type ∈ questionKinds ∧
    (q.type ∈ ["multiple_choice", "checkbox", "dropdown"] →
      2 ≤ q.options.length ∧ ∀ o ∈ q.options, o.length ≤ 1000)

instance (q : Question) : Decidable (QuestionOk q) := by
  unfold QuestionOk; infer_instance

/-- Spec §3 invariants for a `FormStructure`, written from the spec's
words: the "already valid" notion used by spec §8.  Duplicate question
texts are deliberately not excluded (the spec makes them a warning). -/
def ValidStructure (s : FormStructure) : Prop :=
  s.title ≠ "" ∧ s.title.length ≤ 300 ∧ s.description.length ≤ 4096 ∧
    1 ≤ s.questions.length ∧ s.questions.length ≤ 100 ∧ ∀ q ∈ s.questions, QuestionOk q

instance (s : FormStructure) : Decidable (ValidStructure s) := by
  unfold ValidStructure; infer_instance

/-! ## Helper lemmas -/

theorem lookup_mem_snd {l : List (String × String)} {k v : String}
    (h : List.lookup k l = some v) : v ∈ l.map Prod.snd := by
  induction l with
  | nil => simp [List.lookup] at h
  | cons p rest ih =>
    obtain ⟨a, b⟩ := p
    simp only [List.lookup] at h
    cases hk : (k == a) with
    | true =>
      rw [hk] at h
      simp only [Option.some.injEq] at h
      simp [h]
    | false =>
      rw [hk] at h
      simp only [] at h
      simpa using Or.inr (ih h)

theorem suggest_mem_values (t s : String) :
    FormValidator._suggest_type_conversion t s ∈
      ["short_answer", "long_answer", "linear_scale", "dropdown",
       "multiple_choice", "checkbox"] := by
  unfold FormValidator._suggest_type_conversion
  cases h : List.lookup t FormValidator.conversions with
  | some v =>
    have hv := lookup_mem_snd h
    show v ∈ _
    fin_cases hv <;> decide
  | none =>
    show (if _ then "linear_scale" else if _ then "checkbox"
      else if _ then "long_answer" else "short_answer") ∈ _
    split
    · decide
    · split
      · decide
      · split <;> decide

theorem suggest_ne_empty (t s : String) : FormValidator._suggest_type_conversion t s ≠ "" := by
  have h := suggest_mem_values t s
  revert h
  generalize FormValidator._suggest_type_conversion t s = x
  intro h
  fin_cases h <;> decide

theorem suggest_mem_keys (t s : String) :
    (List.lookup (FormValidator._suggest_type_conversion t s) FormValidator.supported_types).isSome
      = true := by
  have h := suggest_mem_values t s
  revert h
  generalize FormValidator._suggest_type_conversion t s = x
  intro h
  fin_cases h <;> decide

/-! ## Claim C9 -/

/-- C9: for every input file whose extension is not one of `.pdf`,
`.docx`, `.txt`, `.md`, `parse_document` returns an error envelope whose
message names the unsupported file type and which lists the four
supported extensions, without attempting text extraction (the result
does not depend on the extractor functions). -/
theorem c9_unsupported_extension_rejected
    (parsePdf parseDocx parseTextFile : String → String) (file_path : String)
    (h : DocParser.splitextLower file_path ∉ [".pdf", ".docx", ".txt", ".md"]) :
    DocParser.parse_document parsePdf parseDocx parseTextFile file_path =
      { status := "error"
        error_message := some ("Unsupported file type: " ++ DocParser.splitextLower file_path)
        supported_types := some [".pdf", ".docx", ".txt", ".md"] } := by
  have h1 : DocParser.splitextLower file_path ≠ ".pdf" := fun he => h (by simp [he])
  have h2 : DocParser.splitextLower file_path ≠ ".docx" := fun he => h (by simp [he])
  have h34 : ¬(DocParser.splitextLower file_path = ".txt"
      ∨ DocParser.splitextLower file_path = ".md") := by
    rintro (he | he) <;> exact h (by simp [he])
  simp only [DocParser.parse_document]
  rw [if_neg h1, if_neg h2, if_neg h34]

/-- C9 witness: a concrete `.xlsx` path is rejected with the expected
envelope, for arbitrary concrete extractors. -/
theorem c9_unsupported_extension_rejected_witness :
    DocParser.splitextLower "docs/form.xlsx" ∉ [".pdf", ".docx", ".txt", ".md"]
    ∧ DocParser.parse_document (fun _ => "") (fun _ => "") (fun _ => "") "docs/form.xlsx" =
      { status := "error"
        error_message := some ("Unsupported file type: " ++ DocParser.splitextLower "docs/form.xlsx")
        supported_types := some [".pdf", ".docx", ".txt", ".md"] } :=
  ⟨by decide, c9_unsupported_extension_rejected _ _ _ _ (by decide)⟩

/-! ## Claim C5 -/

/-- C5 counterexample: `"url"` is outside the claim's 8-entry lookup
table, and `"Please rate this"` contains the content keyword `rate`, so
by the claimed rule the suggestion should be decided by content keywords
(`linear_scale`); the code instead maps `"url"` through its larger
lookup table to `short_answer`. -/
theorem c5_counterexample :
    FormValidator._suggest_type_conversion "url" "Please rate this" = "short_answer"
    ∧ strContains (pyLower "Please rate this") "rate" = true
    ∧ "url" ∉ ["text", "textarea", "number", "email", "rating", "select", "radio", "multi_select"]
    ∧ ("short_answer" : String) ≠ "linear_scale" := by decide

/-- C5 (amended): the suggestion function is total into the supported
kind set and never reports failure; the lookup table has the 11 entries
of the code (`text`, `textarea`, `number`, `email`, `url`, `phone`,
`rating`, `scale`, `select`, `radio`, `multi_select`); only labels
outside that table fall to the content keywords, with default
`short_answer`. -/
theorem c5_type_conversion_total (t s : String) :
    FormValidator._suggest_type_conversion t s ∈ questionKinds
    ∧ (∀ v, List.lookup t FormValidator.conversions = some v →
        FormValidator._suggest_type_conversion t s = v)
    ∧ (List.lookup t FormValidator.conversions = none →
        (containsAny (pyLower s) ["rate", "scale", "score"] = true →
          FormValidator._suggest_type_conversion t s = "linear_scale")
        ∧ (containsAny (pyLower s) ["rate", "scale", "score"] = false →
            containsAny (pyLower s) ["select all", "check all", "multiple"] = true →
          FormValidator._suggest_type_conversion t s = "checkbox")
        ∧ (containsAny (pyLower s) ["rate", "scale", "score"] = false →
            containsAny (pyLower s) ["select all", "check all", "multiple"] = false →
            containsAny (pyLower s) ["explain", "describe", "elaborate"] = true →
          FormValidator._suggest_type_conversion t s = "long_answer")
        ∧ (containsAny (pyLower s) ["rate", "scale", "score"] = false →
            containsAny (pyLower s) ["select all", "check all", "multiple"] = false →
            containsAny (pyLower s) ["explain", "describe", "elaborate"] = false →
          FormValidator._suggest_type_conversion t s = "short_answer")) := by
  refine ⟨?_, ?_, ?_⟩
  · have h := suggest_mem_values t s
    revert h
    generalize FormValidator._suggest_type_conversion t s = x
    intro h
    fin_cases h <;> decide
  · intro v hv
    simp [FormValidator._suggest_type_conversion, hv]
  · intro h
    refine ⟨?_, ?_, ?_, ?_⟩
    · intro h1
      simp [FormValidator._suggest_type_conversion, h, h1]
    · intro h1 h2
      simp [FormValidator._suggest_type_conversion, h, h1, h2]
    · intro h1 h2 h3
      simp [FormValidator._suggest_type_conversion, h, h1, h2, h3]
    · intro h1 h2 h3
      simp [FormValidator._suggest_type_conversion, h, h1, h2, h3]

/-- C5 witness: the theorem applied at concrete labels and texts. -/
theorem c5_type_conversion_total_witness :
    FormValidator._suggest_type_conversion "textarea" "x" = "long_answer"
    ∧ FormValidator._suggest_type_conversion "mystery" "Please rate it" = "linear_scale"
    ∧ FormValidator._suggest_type_conversion "mystery" "plain" = "short_answer"
    ∧ FormValidator._suggest_type_conversion "mystery" "plain" ∈ questionKinds :=
  ⟨(c5_type_conversion_total "textarea" "x").2.1 "long_answer" (by decide),
   (((c5_type_conversion_total "mystery" "Please rate it").2.2 (by decide)).1 (by decide)),
   ((((c5_type_conversion_total "mystery" "plain").2.2 (by decide)).2.2.2
      (by decide) (by decide) (by decide))),
   (c5_type_conversion_total "mystery" "plain").1⟩

/-! ## Claim C8 -/

/-- C8: the update mask is the comma-join of a parts list that depends
only on the (lowercased) question kind plus the presence of a `grading`
sub-object; a `linear_scale` mask always includes the scale-question and
required paths, an `image` mask includes `imageItem.image`, and grading,
when present, appends `questionItem.question.grading`. -/
theorem c8_update_mask_kind_and_grading (q r : Question) :
    (pyLower q.type = "linear_scale" →
      "questionItem.question.scaleQuestion" ∈ FormEditor.maskParts q
      ∧ "questionItem.question.required" ∈ FormEditor.maskParts q)
    ∧ (pyLower q.type = "image" → "imageItem.image" ∈ FormEditor.maskParts q)
    ∧ (q.grading.isSome = true → "questionItem.question.grading" ∈ FormEditor.maskParts q)
    ∧ (pyLower q.type = pyLower r.type → q.grading.isSome = r.grading.isSome →
        FormEditor._get_update_mask_for_question q = FormEditor._get_update_mask_for_question r)
    ∧ FormEditor._get_update_mask_for_question q
        = String.intercalate "," (FormEditor.maskParts q) := by
  refine ⟨?_, ?_, ?_, ?_, rfl⟩
  · intro h
    constructor <;> simp [FormEditor.maskParts, h]
  · intro h
    simp [FormEditor.maskParts, h]
  · intro h
    simp only [FormEditor.maskParts, h, if_true]
    exact List.mem_cons_of_mem _ (List.mem_append_right _ (by simp))
  · intro ht hg
    simp only [FormEditor._get_update_mask_for_question, FormEditor.maskParts, ht, hg]

/-- C8 witness: mixed-case `linear_scale` questions with different
grading payloads (both present) and different other fields get the same
mask, which contains the claimed paths. -/
theorem c8_update_mask_kind_and_grading_witness :
    "questionItem.question.scaleQuestion"
      ∈ FormEditor.maskParts { type := "Linear_Scale", grading := some (jstr "g") }
    ∧ "questionItem.question.grading"
      ∈ FormEditor.maskParts { type := "Linear_Scale", grading := some (jstr "g") }
    ∧ FormEditor._get_update_mask_for_question { type := "Linear_Scale", grading := some (jstr "g") }
      = FormEditor._get_update_mask_for_question
          { type := "LINEAR_SCALE", question := "other", grading := some (jint 1) } :=
  ⟨((c8_update_mask_kind_and_grading { type := "Linear_Scale", grading := some (jstr "g") }
      { type := "LINEAR_SCALE", question := "other", grading := some (jint 1) }).1
      (by decide)).1,
   (c8_update_mask_kind_and_grading { type := "Linear_Scale", grading := some (jstr "g") }
      { type := "LINEAR_SCALE", question := "other", grading := some (jint 1) }).2.2.1
      (by decide),
   (c8_update_mask_kind_and_grading { type := "Linear_Scale", grading := some (jstr "g") }
      { type := "LINEAR_SCALE", question := "other", grading := some (jint 1) }).2.2.2.1
      (by decide) (by decide)⟩

/-! ## Claim C1 -/

/-- C1 counterexample: a question of kind `"magic"`, outside the closed
set, is compiled by both formatters without any error: the form-editor
formatter returns exactly the item it returns for kind `short_answer`
(silent coercion), and the form-creator formatter returns a bare
title-only item. -/
theorem c1_counterexample :
    FormEditor._format_question_for_api (fun _ => 0)
      { type := "magic", question := "Q?", required := true }
    = FormEditor._format_question_for_api (fun _ => 0)
      { type := "short_answer", question := "Q?", required := true }
    ∧ FormCreator._format_question_for_api { type := "magic", question := "Q?", required := true }
      = jobj [("title", jstr "Q?")]
    ∧ "magic" ∉ questionKinds :=
  ⟨rfl, rfl, by decide⟩

/-- C1 (amended): a question whose kind is outside the closed set is not
rejected at compile time; no error of any sort is signaled.  The
form-editor formatter silently defaults it to a short-answer text
question, and the form-creator formatter silently emits a title-only
item with no question payload. -/
theorem c1_unknown_kind_silently_defaulted (pyHash : String → Nat) (q : Question)
    (h : pyLower q.type ∉ questionKinds) :
    FormEditor._format_question_for_api pyHash q
      = jobj [("title", jstr q.question),
          ("questionId", jstr ("question_" ++ toString (pyHash q.question % 1000000))),
          ("question", jobj
            [("questionId", jstr ("question_" ++ toString (pyHash q.question % 1000000))),
             ("required", jbool q.required),
             ("textQuestion", jobj [("type", jstr "SHORT_ANSWER")])])]
    ∧ FormCreator._format_question_for_api q = jobj [("title", jstr q.question)] := by
  have hne : ∀ k ∈ questionKinds, pyLower q.type ≠ k := fun k hk he => h (he ▸ hk)
  constructor
  · simp only [FormEditor._format_question_for_api]
    rw [if_neg (hne "multiple_choice" (by decide)), if_neg (hne "checkbox" (by decide)),
        if_neg (hne "dropdown" (by decide)), if_neg (hne "short_answer" (by decide)),
        if_neg (hne "long_answer" (by decide)), if_neg (hne "linear_scale" (by decide)),
        if_neg (show ¬(pyLower q.type = "multiple_choice_grid"
            ∨ pyLower q.type = "checkbox_grid") from
          fun hor => hor.elim (hne _ (by decide)) (hne _ (by decide))),
        if_neg (hne "date" (by decide)), if_neg (hne "time" (by decide)),
        if_neg (hne "file_upload" (by decide)), if_neg (hne "image" (by decide)),
        if_neg (hne "video" (by decide)), if_neg (hne "section" (by decide))]
    rfl
  · have h11 : pyLower q.type ∉ ["multiple_choice", "checkbox", "dropdown", "short_answer",
        "long_answer", "linear_scale", "multiple_choice_grid", "checkbox_grid", "date",
        "time", "file_upload"] := by
      intro hm
      simp only [List.mem_cons, List.not_mem_nil, or_false] at hm
      rcases hm with h1 | h1 | h1 | h1 | h1 | h1 | h1 | h1 | h1 | h1 | h1 <;>
        exact hne _ (by decide) h1
    simp only [FormCreator._format_question_for_api]
    rw [if_neg h11, if_neg (hne "image" (by decide)), if_neg (hne "video" (by decide)),
        if_neg (hne "section" (by decide))]

/-- C1 witness: the amended theorem applied to a concrete unknown-kind
question carrying a grading sub-object. -/
theorem c1_unknown_kind_silently_defaulted_witness :
    pyLower (Question.type { type := "Rating-Widget", question := "Q?", grading := some (jstr "x") })
      ∉ questionKinds
    ∧ FormCreator._format_question_for_api
        { type := "Rating-Widget", question := "Q?", grading := some (jstr "x") }
      = jobj [("title", jstr "Q?")]
    ∧ FormEditor._format_question_for_api (fun _ => 7)
        { type := "Rating-Widget", question := "Q?", grading := some (jstr "x") }
      = jobj [("title", jstr "Q?"),
          ("questionId", jstr ("question_" ++ toString (7 % 1000000))),
          ("question", jobj
            [("questionId", jstr ("question_" ++ toString (7 % 1000000))),
             ("required", jbool false),
             ("textQuestion", jobj [("type", jstr "SHORT_ANSWER")])])] :=
  ⟨by decide,
   (c1_unknown_kind_silently_defaulted (fun _ => 7)
     { type := "Rating-Widget", question := "Q?", grading := some (jstr "x") } (by decide)).2,
   (c1_unknown_kind_silently_defaulted (fun _ => 7)
     { type := "Rating-Widget", question := "Q?", grading := some (jstr "x") } (by decide)).1⟩

/-! ## Claim C10 -/

theorem checkTypesAux_unsupported_nil (i : Nat) (qs : List Question) :
    (FormValidator.checkTypesAux i qs).1.unsupported = [] := by
  induction qs generalizing i with
  | nil => rfl
  | cons q rest ih =>
    simp only [FormValidator.checkTypesAux]
    cases h : List.lookup (pyLower q.type) FormValidator.supported_types with
    | some g => simpa using ih (i + 1)
    | none =>
      rw [if_pos (suggest_ne_empty _ _)]
      simpa using ih (i + 1)

theorem checkTypesAux_length (i : Nat) (qs : List Question) :
    (FormValidator.checkTypesAux i qs).2.length = qs.length := by
  induction qs generalizing i with
  | nil => rfl
  | cons q rest ih =>
    simp only [FormValidator.checkTypesAux]
    cases h : List.lookup (pyLower q.type) FormValidator.supported_types with
    | some g => simpa using ih (i + 1)
    | none =>
      rw [if_pos (suggest_ne_empty _ _)]
      simpa using ih (i + 1)

theorem checkTypesAux_get (i j : Nat) (qs : List Question) (q : Question)
    (hj : qs[j]? = some q) :
    (FormValidator.checkTypesAux i qs).2[j]?
      = some (FormValidator.convertedQuestionFor (i + j) q) := by
  induction qs generalizing i j with
  | nil => simp at hj
  | cons a rest ih =>
    cases j with
    | zero =>
      simp only [List.getElem?_cons_zero, Option.some.injEq] at hj
      subst hj
      simp only [FormValidator.checkTypesAux, FormValidator.convertedQuestionFor]
      cases h : List.lookup (pyLower a.type) FormValidator.supported_types with
      | some g => simp
      | none =>
        rw [if_pos (suggest_ne_empty _ _)]
        simp
    | succ j =>
      simp only [List.getElem?_cons_succ] at hj
      have harith : i + (j + 1) = (i + 1) + j := by omega
      rw [harith]
      simp only [FormValidator.checkTypesAux]
      cases h : List.lookup (pyLower a.type) FormValidator.supported_types with
      | some g => simpa using ih (i + 1) j hj
      | none =>
        rw [if_pos (suggest_ne_empty _ _)]
        simpa using ih (i + 1) j hj

/-- C10: `check_question_types` returns exactly one converted question
per input question, in input order; its `unsupported` list is always
empty (the branch recording a question as unsupported is unreachable
because the type-conversion suggestion never returns a falsy value). -/
theorem c10_check_question_types_total (questions : List Question) :
    (FormValidator.check_question_types questions).converted_questions.length = questions.length
    ∧ (FormValidator.check_question_types questions).type_analysis.unsupported = []
    ∧ (FormValidator.check_question_types questions).summary.unsupported = 0
    ∧ ∀ i q, questions[i]? = some q →
        (FormValidator.check_question_types questions).converted_questions[i]?
          = some (FormValidator.convertedQuestionFor i q) := by
  refine ⟨checkTypesAux_length 0 questions, checkTypesAux_unsupported_nil 0 questions, ?_, ?_⟩
  · show (FormValidator.checkTypesAux 0 questions).1.unsupported.length = 0
    rw [checkTypesAux_unsupported_nil]
    rfl
  · intro i q h
    have hg := checkTypesAux_get 0 i questions q h
    simpa using hg

/-- C10 witness: the theorem applied to a concrete list containing both
a supported kind and a legacy label needing conversion. -/
theorem c10_check_question_types_total_witness :
    (FormValidator.check_question_types
        [{ type := "short_answer", question := "A?" },
         { type := "rating", question := "Rate?" }]).converted_questions.length = 2
    ∧ (FormValidator.check_question_types
        [{ type := "short_answer", question := "A?" },
         { type := "rating", question := "Rate?" }]).type_analysis.unsupported = []
    ∧ (FormValidator.check_question_types
        [{ type := "short_answer", question := "A?" },
         { type := "rating", question := "Rate?" }]).converted_questions[1]?
      = some (FormValidator.convertedQuestionFor 1 { type := "rating", question := "Rate?" }) :=
  ⟨(c10_check_question_types_total _).1,
   (c10_check_question_types_total _).2.1,
   (c10_check_question_types_total
      [{ type := "short_answer", question := "A?" },
       { type := "rating", question := "Rate?" }]).2.2.2 1
      { type := "rating", question := "Rate?" } rfl⟩

/-! ## Claim C3 -/

theorem addQuestionsRequestsAux_length (i : Nat) (qs : List Question) :
    (FormCreator.addQuestionsRequestsAux i qs).length = qs.length := by
  induction qs generalizing i with
  | nil => rfl
  | cons a rest ih => simpa [FormCreator.addQuestionsRequestsAux] using ih (i + 1)

theorem addQuestionsRequestsAux_get (i j : Nat) (qs : List Question) (q : Question)
    (hj : qs[j]? = some q) :
    (FormCreator.addQuestionsRequestsAux i qs)[j]?
      = some (jobj [("createItem", jobj [("item", FormCreator._format_question_for_api q),
          ("location", jobj [("index", jint (i + j))])])]) := by
  induction qs generalizing i j with
  | nil => simp at hj
  | cons a rest ih =>
    cases j with
    | zero =>
      simp only [List.getElem?_cons_zero, Option.some.injEq] at hj
      subst hj
      simp [FormCreator.addQuestionsRequestsAux]
    | succ j =>
      simp only [List.getElem?_cons_succ] at hj
      have harith : (i : Int) + ((j : Nat) + 1 : Nat) = ((i + 1 : Nat) : Int) + (j : Nat) := by
        push_cast
        ring
      rw [harith]
      simpa [FormCreator.addQuestionsRequestsAux] using ih (i + 1) j hj

theorem apiRequestsAux_length (fmt : Question → JVal) (i : Nat) (qs : List Question) :
    (FormsApi.addQuestionsRequestsAux fmt i qs).length = qs.length := by
  induction qs generalizing i with
  | nil => rfl
  | cons a rest ih => simpa [FormsApi.addQuestionsRequestsAux] using ih (i + 1)

theorem apiRequestsAux_get (fmt : Question → JVal) (i j : Nat) (qs : List Question)
    (q : Question) (hj : qs[j]? = some q) :
    (FormsApi.addQuestionsRequestsAux fmt i qs)[j]?
      = some (jobj [("createItem", jobj [
          ("item", jobj [("title", jstr q.title),
            ("questionItem", jobj [("question", fmt q), ("required", jbool q.required)])]),
          ("location", jobj [("index", jint (i + j))])])]) := by
  induction qs generalizing i j with
  | nil => simp at hj
  | cons a rest ih =>
    cases j with
    | zero =>
      simp only [List.getElem?_cons_zero, Option.some.injEq] at hj
      subst hj
      simp [FormsApi.addQuestionsRequestsAux]
    | succ j =>
      simp only [List.getElem?_cons_succ] at hj
      have harith : (i : Int) + ((j : Nat) + 1 : Nat) = ((i + 1 : Nat) : Int) + (j : Nat) := by
        push_cast
        ring
      rw [harith]
      simpa [FormsApi.addQuestionsRequestsAux] using ih (i + 1) j hj

/-- C3: compiling a valid `FormStructure` with `n` questions produces
exactly `n` operations, each a `createItem`, where the `i`-th operation
carries the `i`-th question's formatted payload and location index `i`
(so location indices are `0, 1, …, n-1` in original question order);
this holds for both compile paths (`_add_questions_direct` and
`GoogleFormsAPI.add_questions`, the latter for any formatter). -/
theorem c3_compile_one_createItem_per_question (s : FormStructure)
    (_hs : ValidStructure s) :
    (FormCreator._add_questions_direct_requests s.questions).length = s.questions.length
    ∧ (∀ (i : Nat) (q : Question), s.questions[i]? = some q →
        (FormCreator._add_questions_direct_requests s.questions)[i]?
          = some (jobj [("createItem", jobj [("item", FormCreator._format_question_for_api q),
              ("location", jobj [("index", jint i)])])]))
    ∧ (∀ fmt : Question → JVal,
        (FormsApi.add_questions_requests fmt s.questions).length = s.questions.length
        ∧ ∀ (i : Nat) (q : Question), s.questions[i]? = some q →
            (FormsApi.add_questions_requests fmt s.questions)[i]?
              = some (jobj [("createItem", jobj [
                  ("item", jobj [("title", jstr q.title),
                    ("questionItem", jobj [("question", fmt q),
                      ("required", jbool q.required)])]),
                  ("location", jobj [("index", jint i)])])])) := by
  refine ⟨addQuestionsRequestsAux_length 0 s.questions, ?_, ?_⟩
  · intro i q h
    have hg := addQuestionsRequestsAux_get 0 i s.questions q h
    simpa using hg
  · intro fmt
    refine ⟨apiRequestsAux_length fmt 0 s.questions, ?_⟩
    intro i q h
    have hg := apiRequestsAux_get fmt 0 i s.questions q h
    simpa using hg

/-- C3 witness: a concrete valid two-question structure compiles to two
`createItem` operations; the second carries location index 1 and the
second question's payload. -/
theorem c3_compile_one_createItem_per_question_witness :
    ValidStructure
      { title := "T", description := "D",
        questions := [{ type := "short_answer", question := "A?" },
          { type := "multiple_choice", question := "B?", options := ["x", "y"] }] }
    ∧ (FormCreator._add_questions_direct_requests
        [{ type := "short_answer", question := "A?" },
         { type := "multiple_choice", question := "B?", options := ["x", "y"] }]).length = 2
    ∧ (FormCreator._add_questions_direct_requests
        [{ type := "short_answer", question := "A?" },
         { type := "multiple_choice", question := "B?", options := ["x", "y"] }])[1]?
      = some (jobj [("createItem", jobj [
          ("item", FormCreator._format_question_for_api
            { type := "multiple_choice", question := "B?", options := ["x", "y"] }),
          ("location", jobj [("index", jint 1)])])]) :=
  ⟨by decide,
   (c3_compile_one_createItem_per_question
      { title := "T", description := "D",
        questions := [{ type := "short_answer", question := "A?" },
          { type := "multiple_choice", question := "B?", options := ["x", "y"] }] }
      (by decide)).1,
   (c3_compile_one_createItem_per_question
      { title := "T", description := "D",
        questions := [{ type := "short_answer", question := "A?" },
          { type := "multiple_choice", question := "B?", options := ["x", "y"] }] }
      (by decide)).2.1 1 { type := "multiple_choice", question := "B?", options := ["x", "y"] }
      rfl⟩

/-! ## Claim C2 -/

theorem mem_validateQuestionsAux (qs : List Question) (k j : Nat) (q : Question)
    (hj : qs[j]? = some q) (x : String)
    (hx : x ∈ (FormValidator.questionChecks (k + j) q).1) :
    x ∈ (FormValidator.validateQuestionsAux k qs).1 := by
  induction qs generalizing k j with
  | nil => simp at hj
  | cons a rest ih =>
    cases j with
    | zero =>
      simp only [List.getElem?_cons_zero, Option.some.injEq] at hj
      subst hj
      exact List.mem_append_left _ (by simpa using hx)
    | succ j =>
      simp only [List.getElem?_cons_succ] at hj
      have harith : (k + 1) + j = k + (j + 1) := by omega
      have hx' : x ∈ (FormValidator.questionChecks ((k + 1) + j) q).1 := by
        rw [harith]
        exact hx
      exact List.mem_append_right _ (ih (k + 1) j hj hx')

theorem validate_issues_eq (s : FormStructure) :
    (FormValidator.validate_form_structure s).validation.issues =
      (if s.title = "" then ["Form title is required"]
       else if s.title.length > 300 then ["Form title exceeds 300 character limit"] else [])
      ++ (if s.description = "" then []
          else if s.description.length > 4096 then
            ["Form description exceeds 4096 character limit"]
          else [])
      ++ (if s.questions.isEmpty then ["Form must have at least one question"]
          else if s.questions.length > 100 then ["Form exceeds maximum of 100 questions"]
          else [])
      ++ (FormValidator._validate_questions s.questions).1 := rfl

theorem validate_warnings_eq (s : FormStructure) :
    (FormValidator.validate_form_structure s).validation.warnings =
      (if s.description = "" then ["Form description is recommended for better user experience"]
       else [])
      ++ (FormValidator._validate_questions s.questions).2
      ++ (if (FormValidator._find_duplicates (s.questions.map (fun q => q.question))).isEmpty
          then []
          else ["Duplicate questions found: " ++ FormValidator.pyListRepr
            (FormValidator._find_duplicates (s.questions.map (fun q => q.question)))]) := rfl

theorem validate_is_valid_eq (s : FormStructure) :
    (FormValidator.validate_form_structure s).validation.is_valid
      = ((FormValidator.validate_form_structure s).validation.issues.length == 0) := rfl

theorem validateQuestionsAux_set_options (qs : List Question) (k i : Nat) (q : Question)
    (hq : qs[i]? = some q) (hne : q.type ≠ "multiple_choice") (opts : List String) :
    FormValidator.validateQuestionsAux k (qs.set i { q with options := opts })
      = FormValidator.validateQuestionsAux k qs := by
  induction qs generalizing k i with
  | nil => simp
  | cons a rest ih =>
    cases i with
    | zero =>
      simp only [List.getElem?_cons_zero, Option.some.injEq] at hq
      subst hq
      simp only [List.set_cons_zero, FormValidator.validateQuestionsAux]
      have hchecks : FormValidator.questionChecks k { a with options := opts }
          = FormValidator.questionChecks k a := by
        simp [FormValidator.questionChecks, hne]
      rw [hchecks]
    | succ i =>
      simp only [List.getElem?_cons_succ] at hq
      simp only [List.set_cons_succ, FormValidator.validateQuestionsAux]
      rw [ih (k + 1) i hq]

/-- C2 counterexample: a `checkbox` question with a single option (fewer
than 2) passes validation with no blocking issue at all — the claimed
issue for `checkbox`/`dropdown` kinds is never reported. -/
theorem c2_counterexample :
    (FormValidator.validate_form_structure
      { title := "T", description := "D",
        questions := [{ type := "checkbox", question := "Pick?", options := ["X"] }] }).validation.issues = []
    ∧ (FormValidator.validate_form_structure
      { title := "T", description := "D",
        questions := [{ type := "checkbox", question := "Pick?", options := ["X"] }] }).validation.is_valid = true := by decide

/-- C2 (amended): only `multiple_choice` questions get the option
checks — fewer than 2 options is a blocking issue and each over-long
option is a blocking issue; for every question of any other kind
(including `checkbox` and `dropdown`) the options are not inspected at
all: replacing them changes nothing in `_validate_questions`. -/
theorem c2_option_checks_only_for_multiple_choice (s : FormStructure) (i : Nat) (q : Question)
    (hq : s.questions[i]? = some q) :
    (q.type = "multiple_choice" → q.options.length < 2 →
      "Question " ++ toString (i + 1) ++ ": Multiple choice questions need at least 2 options"
        ∈ (FormValidator.validate_form_structure s).validation.issues)
    ∧ (q.type = "multiple_choice" → ∀ (j : Nat) (o : String), q.options[j]? = some o →
        o.length > 1000 →
        "Question " ++ toString (i + 1) ++ ", Option " ++ toString (j + 1)
            ++ ": Option text exceeds 1000 character limit"
          ∈ (FormValidator.validate_form_structure s).validation.issues)
    ∧ (q.type ≠ "multiple_choice" → ∀ opts : List String,
        FormValidator._validate_questions (s.questions.set i { q with options := opts })
          = FormValidator._validate_questions s.questions) := by
  refine ⟨?_, ?_, ?_⟩
  · intro htype hlen
    rw [validate_issues_eq]
    apply List.mem_append_right
    have hx : "Question " ++ toString (i + 1)
        ++ ": Multiple choice questions need at least 2 options"
        ∈ (FormValidator.questionChecks (0 + i) q).1 := by
      rw [Nat.zero_add]
      simp only [FormValidator.questionChecks, htype, if_pos, if_true]
      rw [if_pos hlen]
      simp [List.mem_append]
    exact mem_validateQuestionsAux s.questions 0 i q hq _ hx
  · intro htype j o hj ho
    rw [validate_issues_eq]
    apply List.mem_append_right
    have hx : "Question " ++ toString (i + 1) ++ ", Option " ++ toString (j + 1)
        ++ ": Option text exceeds 1000 character limit"
        ∈ (FormValidator.questionChecks (0 + i) q).1 := by
      rw [Nat.zero_add]
      simp only [FormValidator.questionChecks]
      rw [if_pos htype]
      apply List.mem_append_right
      exact List.mem_filterMap.mpr
        ⟨(j, o), List.mk_mem_enum_iff_getElem?.mpr hj, by simp [ho]⟩
    exact mem_validateQuestionsAux s.questions 0 i q hq _ hx
  · intro hne opts
    exact validateQuestionsAux_set_options s.questions 0 i q hq hne opts

/-- C2 witness: the amended theorem applied to a one-question
`multiple_choice` structure with one short and one over-long option, and
to a `checkbox` structure whose options are swapped out. -/
theorem c2_option_checks_only_for_multiple_choice_witness :
    "Question 1: Multiple choice questions need at least 2 options"
      ∈ (FormValidator.validate_form_structure
        { title := "T", description := "D",
          questions :=
            [{ type := "multiple_choice", question := "Pick one?", options := ["X"] }] }).validation.issues
    ∧ "Question 1, Option 1: Option text exceeds 1000 character limit"
      ∈ (FormValidator.validate_form_structure
        { title := "T", description := "D",
          questions := [{ type := "multiple_choice", question := "Pick one?",
                           options := [String.mk (List.replicate 1001 'a')] }] }).validation.issues
    ∧ FormValidator._validate_questions
        ([({ type := "checkbox", question := "Pick?", options := ["X"] } : Question)].set 0
          { ({ type := "checkbox", question := "Pick?", options := ["X"] } : Question) with
            options := ["a", "b", "c"] })
      = FormValidator._validate_questions
        [{ type := "checkbox", question := "Pick?", options := ["X"] }] :=
  ⟨(c2_option_checks_only_for_multiple_choice
      { title := "T", description := "D",
        questions :=
          [{ type := "multiple_choice", question := "Pick one?", options := ["X"] }] } 0
      { type := "multiple_choice", question := "Pick one?", options := ["X"] } rfl).1
      rfl (by decide),
   (c2_option_checks_only_for_multiple_choice
      { title := "T", description := "D",
        questions := [{ type := "multiple_choice", question := "Pick one?",
                         options := [String.mk (List.replicate 1001 'a')] }] } 0
      { type := "multiple_choice", question := "Pick one?",
        options := [String.mk (List.replicate 1001 'a')] } rfl).2.1
      rfl 0 _ rfl (by decide),
   (c2_option_checks_only_for_multiple_choice
      { title := "T", description := "D",
        questions := [{ type := "checkbox", question := "Pick?", options := ["X"] }] } 0
      { type := "checkbox", question := "Pick?", options := ["X"] } rfl).2.2
      (by decide) ["a", "b", "c"]⟩

/-! ## Claims C6 and C7 -/

theorem questionChecks_ok (i : Nat) (q : Question) (hq : QuestionOk q) :
    (FormValidator.questionChecks i q).1 = [] := by
  obtain ⟨h1, h2, h3, h4⟩ := hq
  have htext : ¬(q.question = "" ∨ pyStrip q.question = "") := by
    rintro (he | he)
    · exact h1 (by rw [he]; rfl)
    · exact h1 he
  have htype : q.type ≠ "" := by
    intro he
    rw [he] at h3
    exact absurd h3 (by decide)
  have hlen4096 : ¬(q.question.length > 4096) := by omega
  simp only [FormValidator.questionChecks]
  by_cases hmc : q.type = "multiple_choice"
  · rw [if_pos hmc]
    obtain ⟨hlen, hbound⟩ := h4 (by rw [hmc]; decide)
    have hcount : ¬(q.options.length < 2) := by omega
    have hfm : (q.options.enum.filterMap (fun p =>
        if p.2.length > 1000 then
          some ("Question " ++ toString (i + 1) ++ ", Option " ++ toString (p.1 + 1)
            ++ ": Option text exceeds 1000 character limit")
        else none)) = [] := by
      apply List.filterMap_eq_nil_iff.mpr
      rintro ⟨j, x⟩ hp
      rw [List.mk_mem_enum_iff_getElem?] at hp
      have hx := hbound x (List.getElem?_mem hp)
      simp only [if_neg (show ¬(x.length > 1000) by omega)]
    rw [if_neg htext, if_neg hlen4096, if_neg htype, if_neg hcount, hfm]
    split <;> rfl
  · rw [if_neg hmc, if_neg htext, if_neg hlen4096, if_neg htype]
    rfl

theorem validateQuestionsAux_ok (k : Nat) (qs : List Question)
    (h : ∀ q ∈ qs, QuestionOk q) :
    (FormValidator.validateQuestionsAux k qs).1 = [] := by
  induction qs generalizing k with
  | nil => rfl
  | cons a rest ih =>
    simp only [FormValidator.validateQuestionsAux]
    rw [questionChecks_ok k a (h a (by simp)), ih (k + 1) (fun q hq => h q (by simp [hq]))]
    rfl

theorem valid_no_issues (s : FormStructure) (h : ValidStructure s) :
    (FormValidator.validate_form_structure s).validation.issues = [] := by
  obtain ⟨h1, h2, h3, h4, h5, h6⟩ := h
  rw [validate_issues_eq]
  rw [if_neg h1, if_neg (show ¬(s.title.length > 300) by omega)]
  have hdesc : (if s.description = "" then ([] : List String)
      else if s.description.length > 4096 then ["Form description exceeds 4096 character limit"]
      else []) = [] := by
    split
    · rfl
    · rw [if_neg (show ¬(s.description.length > 4096) by omega)]
  rw [hdesc]
  have hqe : ¬(s.questions.isEmpty = true) := by
    rw [List.isEmpty_iff]
    intro he
    rw [he] at h4
    simp at h4
  rw [if_neg hqe, if_neg (show ¬(s.questions.length > 100) by omega)]
  simp only [FormValidator._validate_questions]
  rw [validateQuestionsAux_ok 0 s.questions h6]
  rfl

theorem validate_validated_eq (s : FormStructure) :
    (FormValidator.validate_form_structure s).validation.validated_structure
      = (if (FormValidator.validate_form_structure s).validation.issues.length == 0
         then some s else none) := rfl

/-- C6: validation is a pure function of its input; the embedding's type
`FormStructure → ValidateEnvelope` records that the Python body performs
no writes to its argument (the valid case even hands the argument back
unchanged in `validated_structure`).  For every structure satisfying the
spec's §3 invariants, `is_valid` is true, and a second call on the same
unchanged structure yields an identical report. -/
theorem c6_validation_pure_and_idempotent (s : FormStructure) (h : ValidStructure s) :
    (FormValidator.validate_form_structure s).validation.is_valid = true
    ∧ (FormValidator.validate_form_structure s).validation.validated_structure = some s
    ∧ FormValidator.validate_form_structure s = FormValidator.validate_form_structure s := by
  have hni := valid_no_issues s h
  refine ⟨?_, ?_, rfl⟩
  · rw [validate_is_valid_eq, hni]
    rfl
  · rw [validate_validated_eq, hni]
    rfl

/-- C6 witness: the concrete one-question structure of the spec's
scenario 1 (after repair) validates as valid, unchanged. -/
theorem c6_validation_pure_and_idempotent_witness :
    ValidStructure
      { title := "T", description := "D",
        questions := [{ type := "short_answer", question := "Your name?", required := true }] }
    ∧ (FormValidator.validate_form_structure
        { title := "T", description := "D",
          questions :=
          [{ type := "short_answer", question := "Your name?", required := true }] }
      ).validation.is_valid = true :=
  ⟨by decide,
   (c6_validation_pure_and_idempotent
      { title := "T", description := "D",
        questions := [{ type := "short_answer", question := "Your name?", required := true }] }
      (by decide)).1⟩

/-- C7: `is_valid` is true exactly when `issues` is empty;
`question_count` is the number of input questions; duplicate question
texts only ever produce the duplicate warning (a spec-§3-valid structure
with duplicates still validates as valid). -/
theorem c7_is_valid_iff_no_issues_duplicates_warn_only (s : FormStructure) :
    ((FormValidator.validate_form_structure s).validation.is_valid = true
      ↔ (FormValidator.validate_form_structure s).validation.issues = [])
    ∧ (FormValidator.validate_form_structure s).validation.question_count = s.questions.length
    ∧ (FormValidator._find_duplicates (s.questions.map (fun q => q.question)) ≠ [] →
        "Duplicate questions found: " ++ FormValidator.pyListRepr
            (FormValidator._find_duplicates (s.questions.map (fun q => q.question)))
          ∈ (FormValidator.validate_form_structure s).validation.warnings)
    ∧ (ValidStructure s →
        (FormValidator.validate_form_structure s).validation.is_valid = true) := by
  refine ⟨?_, rfl, ?_, ?_⟩
  · rw [validate_is_valid_eq]
    simp [List.length_eq_zero]
  · intro hd
    rw [validate_warnings_eq]
    apply List.mem_append_right
    have hie : (FormValidator._find_duplicates
        (s.questions.map (fun q => q.question))).isEmpty = false := by
      rw [Bool.eq_false_iff]
      intro he
      exact hd (List.isEmpty_iff.mp he)
    rw [if_neg (by simp [hie])]
    exact List.mem_singleton.mpr rfl
  · intro hv
    rw [validate_is_valid_eq, valid_no_issues s hv]
    rfl

/-- C7 witness: a structure with two identical valid questions is valid,
counts two questions, and gets the duplicate warning. -/
theorem c7_is_valid_iff_no_issues_duplicates_warn_only_witness :
    (FormValidator.validate_form_structure
      { title := "T", description := "D",
        questions := [{ type := "short_answer", question := "Same?" },
          { type := "short_answer", question := "Same?" }] }).validation.is_valid = true
    ∧ (FormValidator.validate_form_structure
      { title := "T", description := "D",
        questions := [{ type := "short_answer", question := "Same?" },
          { type := "short_answer", question := "Same?" }] }).validation.question_count = 2
    ∧ "Duplicate questions found: " ++ FormValidator.pyListRepr
        (FormValidator._find_duplicates
          ((FormStructure.questions
            { title := "T", description := "D",
              questions := [{ type := "short_answer", question := "Same?" },
                { type := "short_answer", question := "Same?" }] }).map (fun q => q.question)))
      ∈ (FormValidator.validate_form_structure
        { title := "T", description := "D",
          questions := [{ type := "short_answer", question := "Same?" },
            { type := "short_answer", question := "Same?" }] }).validation.warnings :=
  ⟨(c7_is_valid_iff_no_issues_duplicates_warn_only
      { title := "T", description := "D",
        questions := [{ type := "short_answer", question := "Same?" },
          { type := "short_answer", question := "Same?" }] }).2.2.2 (by decide),
   (c7_is_valid_iff_no_issues_duplicates_warn_only
      { title := "T", description := "D",
        questions := [{ type := "short_answer", question := "Same?" },
          { type := "short_answer", question := "Same?" }] }).2.1,
   (c7_is_valid_iff_no_issues_duplicates_warn_only
      { title := "T", description := "D",
        questions := [{ type := "short_answer", question := "Same?" },
          { type := "short_answer", question := "Same?" }] }).2.2.1 (by decide)⟩

/-! ## Claim C4 -/

/-- C4: `_determine_question_type` evaluates the keyword rules in the
claimed precedence order (first match wins, default `short_answer`;
"contains" is Python substring containment on the lowercased line); and
the scenario text `"1. Explain your reasoning?\n2. Rate this 1-5?"`
extracts exactly two questions, of kinds `long_answer` and
`linear_scale`, in that order. -/
theorem c4_keyword_precedence_and_scenario :
    (∀ s : String,
      (containsAny (pyLower s) ["explain", "describe", "elaborate", "why", "how"] = true →
        DocParser._determine_question_type s = "long_answer")
      ∧ (containsAny (pyLower s) ["explain", "describe", "elaborate", "why", "how"] = false →
          containsAny (pyLower s) ["rate", "scale", "score", "1-5", "1-10"] = true →
        DocParser._determine_question_type s = "linear_scale")
      ∧ (containsAny (pyLower s) ["explain", "describe", "elaborate", "why", "how"] = false →
          containsAny (pyLower s) ["rate", "scale", "score", "1-5", "1-10"] = false →
          containsAny (pyLower s) ["select all", "check all", "multiple"] = true →
        DocParser._determine_question_type s = "checkbox")
      ∧ (containsAny (pyLower s) ["explain", "describe", "elaborate", "why", "how"] = false →
          containsAny (pyLower s) ["rate", "scale", "score", "1-5", "1-10"] = false →
          containsAny (pyLower s) ["select all", "check all", "multiple"] = false →
          containsAny (pyLower s) ["date", "when"] = true →
        DocParser._determine_question_type s = "date")
      ∧ (containsAny (pyLower s) ["explain", "describe", "elaborate", "why", "how"] = false →
          containsAny (pyLower s) ["rate", "scale", "score", "1-5", "1-10"] = false →
          containsAny (pyLower s) ["select all", "check all", "multiple"] = false →
          containsAny (pyLower s) ["date", "when"] = false →
          containsAny (pyLower s) ["time", "hour"] = true →
        DocParser._determine_question_type s = "time")
      ∧ (containsAny (pyLower s) ["explain", "describe", "elaborate", "why", "how"] = false →
          containsAny (pyLower s) ["rate", "scale", "score", "1-5", "1-10"] = false →
          containsAny (pyLower s) ["select all", "check all", "multiple"] = false →
          containsAny (pyLower s) ["date", "when"] = false →
          containsAny (pyLower s) ["time", "hour"] = false →
        DocParser._determine_question_type s = "short_answer"))
    ∧ (DocParser.extract_questions "1. Explain your reasoning?\n2. Rate this 1-5?").map
        (fun q => q.type) = ["long_answer", "linear_scale"]
    ∧ (DocParser.extract_questions "1. Explain your reasoning?\n2. Rate this 1-5?").map
        (fun q => q.question)
      = ["1. Explain your reasoning?", "2. Rate this 1-5?"] := by
  refine ⟨?_, by decide, by decide⟩
  intro s
  refine ⟨?_, ?_, ?_, ?_, ?_, ?_⟩
  · intro h1
    simp [DocParser._determine_question_type, h1]
  · intro h1 h2
    simp [DocParser._determine_question_type, h1, h2]
  · intro h1 h2 h3
    simp [DocParser._determine_question_type, h1, h2, h3]
  · intro h1 h2 h3 h4
    simp [DocParser._determine_question_type, h1, h2, h3, h4]
  · intro h1 h2 h3 h4 h5
    simp [DocParser._determine_question_type, h1, h2, h3, h4, h5]
  · intro h1 h2 h3 h4 h5
    simp [DocParser._determine_question_type, h1, h2, h3, h4, h5]

/-- C4 witness: the precedence clauses applied to concrete lines, one
per rule. -/
theorem c4_keyword_precedence_and_scenario_witness :
    DocParser._determine_question_type "1. Explain your reasoning?" = "long_answer"
    ∧ DocParser._determine_question_type "2. Rate this 1-5?" = "linear_scale"
    ∧ DocParser._determine_question_type "3. Select all teams" = "checkbox"
    ∧ DocParser._determine_question_type "4. When is it?" = "date"
    ∧ DocParser._determine_question_type "5. Best hour?" = "time"
    ∧ DocParser._determine_question_type "6. Name?" = "short_answer" :=
  ⟨(c4_keyword_precedence_and_scenario.1 "1. Explain your reasoning?").1 (by decide),
   (c4_keyword_precedence_and_scenario.1 "2. Rate this 1-5?").2.1 (by decide) (by decide),
   (c4_keyword_precedence_and_scenario.1 "3. Select all teams").2.2.1
     (by decide) (by decide) (by decide),
   (c4_keyword_precedence_and_scenario.1 "4. When is it?").2.2.2.1
     (by decide) (by decide) (by decide) (by decide),
   (c4_keyword_precedence_and_scenario.1 "5. Best hour?").2.2.2.2.1
     (by decide) (by decide) (by decide) (by decide) (by decide),
   (c4_keyword_precedence_and_scenario.1 "6. Name?").2.2.2.2.2
     (by decide) (by decide) (by decide) (by decide) (by decide)⟩
